import Mathlib

/-!
# Verification of the Agent Execution Engine of `sls-prototype`

Shallow embedding of `src/utils/agent.py` (class `Agent`): the
PLAN → ACTION → OBSERVE → OUTPUT step controller, the tool dispatcher, the
two-level memory model (persistent `_memory_chat` and per-task scratch
`_memory_curr_execution`) and the iteration/termination logic.

Modelling conventions:
* Python mutable instance state becomes the record `AgentState`, threaded
  explicitly through each behavior.
* Each external call that can raise (a `driver.generate` call, a JSON parse,
  a tool invocation) is embedded as an `Except String` value supplied by a
  `DriverOracle`; a raised exception is the `Except.error` branch and is
  propagated to the `try/except` boundary of `iterate` exactly as in the
  source.  Because a Python exception leaves already-performed list mutations
  in place, every behavior returns the (possibly partially updated) state
  *together with* the `Except` result.
* `max_iterations` and `_num_curr_iterations` are Python ints, embedded as
  `Int` (so that `max_iterations - 1` keeps Python semantics).
-/

set_option maxHeartbeats 1000000

namespace SLS

/-- `NextStep` enum of `agent.py` (lines 27–31). -/
inductive NextStep
  | PLAN
  | ACTION
  | OBSERVE
  | OUTPUT
deriving DecidableEq

/-- A Driver-issued tool call: name, JSON argument payload (kept opaque as a
string), and correlation id (`compositeai` `ToolCall`). -/
structure ToolCall where
  id : String
  name : String
  args : String
deriving DecidableEq

/-- The `compositeai` `DriverMessage` variants used by `agent.py`:
System/User/Assistant/Tool messages.  An Assistant message carries either
text content or a list of requested tool calls (`agent.py` line 163 builds
one with `tool_calls=` and no content). A Tool message carries the result
text and the correlation id of the call it answers. -/
inductive DriverMessage
  | systemMsg (content : String)
  | userMsg (content : String)
  | assistantMsg (content : String)
  | assistantToolCalls (tool_calls : List ToolCall)
  | toolMsg (content : String) (tool_call_id : String)
deriving DecidableEq

/-- Is this a Tool message?  (Used to state which messages the dispatcher
appended to scratch memory.) -/
def DriverMessage.isToolMsg : DriverMessage → Bool
  | DriverMessage.toolMsg _ _ => true
  | _ => false

/-- The `compositeai` observable step unit: `AgentStep` (intermediate) or
`AgentResult` (terminal), both holding content. -/
inductive AgentOutput
  | step (content : String)
  | result (content : String)
deriving DecidableEq

/-- Is this an intermediate (non-terminal) step? -/
def AgentOutput.isStep : AgentOutput → Bool
  | AgentOutput.step _ => true
  | AgentOutput.result _ => false

/-- A registered tool: its schema name (`tool.get_schema().name`) and its
invocation function (`tool.func(**function_args)`), which returns the result
already passed through `str(...)`, or raises (`Except.error`).  The argument
payload is the opaque JSON string of the call. -/
structure Tool where
  name : String
  func : String → Except String String

/-- A Driver generation response: text content plus the requested tool calls
(empty when the Driver answered with plain text). -/
structure DriverResponse where
  content : String
  tool_calls : List ToolCall
deriving DecidableEq

/-- The mutable private state of an `Agent` instance (`agent.py` lines
39–42): persistent chat memory, per-task scratch memory, controller state,
iteration counter. -/
structure AgentState where
  memory_chat : List DriverMessage
  memory_curr_execution : List DriverMessage
  next_step : NextStep
  num_curr_iterations : Int
deriving DecidableEq

/-- One advancement's worth of external non-determinism: the response (or
raised exception) of each `driver.generate` call site.  `observeResp` is the
parsed boolean verdict of the OBSERVE self-check (`json.loads(...)["complete"]`,
line 197); a malformed response is its `Except.error` branch. -/
structure DriverOracle where
  planResp : Except String String
  actionResp : Except String DriverResponse
  observeResp : Except String Bool
  outputResp : Except String String

/-- PLAN prompt (`agent.py` line 93). -/
def plan_prompt : String := "WRITE WHAT YOU SHOULD DO NEXT:"

/-- ACTION prompt (`agent.py` line 108). -/
def action_system_message : String := "WORK ON WHAT YOU SHOULD DO NEXT:"

/-- OBSERVE self-check prompt (`agent.py` lines 177–189).  Its exact text —
fixed instructions plus the pydantic-generated JSON schema of `StepCheck` —
plays no role in any claim, so it is kept as an opaque constant. -/
def step_check_prompt : String :=
  "DO YOU HAVE ENOUGH INFORMATION TO COMPLETE THE TASK? (JSON schema instructions)"

/-- OUTPUT answer prompt (`agent.py` lines 213–215, a triple-quoted f-string
with its indentation). -/
def result_prompt : String := "\n            ANSWER THE USER'S REQUEST.\n            "

/-- The fixed failure message of the error-variant OUTPUT (`agent.py` line 211). -/
def error_response : String := "An error occurred. Please try again."

/-- The exception message raised on an unmatched tool call (`agent.py` line 160). -/
def no_match_error : String :=
  "Driver called function, function call does not match any of the provided tools."

/-- Task text built by `exec_init` (`agent.py` lines 58–65): the raw task, or
the task wrapped with the seed-input preamble (triple-quoted f-string,
indentation preserved). -/
def exec_task_text (task : String) (input : Option String) : String :=
  match input with
  | none => task
  | some info =>
      "\n            " ++ task ++
      "\n\n            SOME INFO YOU ARE GIVEN TO START THE TASK:\n            " ++
      info ++ "\n            "

/-- `Agent.exec_init` (`agent.py` lines 57–67): append the task as a User
message to *persistent* chat memory. -/
def exec_init (task : String) (input : Option String) (s : AgentState) : AgentState :=
  { s with memory_chat := s.memory_chat ++ [DriverMessage.userMsg (exec_task_text task input)] }

/-- The state of a freshly constructed `Agent` (`agent.py` lines 39–54):
defaults plus the description appended as the System message by `__init__`. -/
def initState (description : String) : AgentState :=
  { memory_chat := [DriverMessage.systemMsg description]
    memory_curr_execution := []
    next_step := NextStep.PLAN
    num_curr_iterations := 0 }

/-- `Agent._plan` (`agent.py` lines 91–103).  `resp` is the Driver generation
(or the exception it raised). -/
def plan (resp : Except String String) (s : AgentState) :
    AgentState × Except String AgentOutput :=
  let s := { s with memory_curr_execution :=
      s.memory_curr_execution ++ [DriverMessage.systemMsg plan_prompt] }
  match resp with
  | Except.error e => (s, Except.error e)
  | Except.ok content =>
      ({ s with
          memory_curr_execution :=
            s.memory_curr_execution ++ [DriverMessage.assistantMsg content]
          next_step := NextStep.ACTION },
        Except.ok (AgentOutput.step content))

/-- The inner `for tool in self.tools` loop of `Agent._action` (`agent.py`
lines 137–156) for one tool call: threads the accumulator
`(no_match_flag, tool_messages, observations)`.  On a name match the flag is
cleared; a successful invocation appends a Tool message and extends the
observations; an invocation that raises only extends the observations with
`"Error: " ++ e` (the `except` at line 155 fires after `no_match_flag` was
already cleared, and no Tool message is appended). -/
def runToolLoop (tc : ToolCall) :
    List Tool → Bool × List DriverMessage × String → Bool × List DriverMessage × String
  | [], acc => acc
  | tool :: rest, (no_match_flag, tool_messages, observations) =>
      if tool.name == tc.name then
        match tool.func tc.args with
        | Except.ok function_result =>
            runToolLoop tc rest
              (false,
                tool_messages ++ [DriverMessage.toolMsg function_result tc.id],
                observations ++ "\n\n" ++ function_result)
        | Except.error e =>
            runToolLoop tc rest
              (false, tool_messages, observations ++ "\n\n" ++ ("Error: " ++ e))
      else
        runToolLoop tc rest (no_match_flag, tool_messages, observations)

/-- The outer `for tool_call in tool_calls` loop of `Agent._action`
(`agent.py` lines 130–160): processes each call with `runToolLoop`, raising
(`Except.error`) as soon as a call matched no registered tool.  On a raise
the locally accumulated `tool_messages`/`observations` are discarded, as in
the source (they are locals lost by the exception). -/
def runToolCalls (tools : List Tool) :
    List ToolCall → List DriverMessage → String →
      Except String (List DriverMessage × String)
  | [], tool_messages, observations => Except.ok (tool_messages, observations)
  | tc :: rest, tool_messages, observations =>
      match runToolLoop tc tools (true, tool_messages, observations) with
      | (no_match_flag, tool_messages, observations) =>
          if no_match_flag then Except.error no_match_error
          else runToolCalls tools rest tool_messages observations

/-- The per-call header of the emitted ACTION step text (`agent.py` lines
168–171). -/
def toolObserveHeader : List ToolCall → String
  | [] => ""
  | tc :: rest =>
      "Calling tool:\n```json\n" ++ tc.name ++ "\n```\n" ++
      ("Parameters:\n```json\n" ++ tc.args ++ "\n```\n\n") ++
      toolObserveHeader rest

/-- The full emitted ACTION step text for a tool-call batch (`agent.py`
lines 168–172). -/
def toolObserveText (tool_calls : List ToolCall) (observations : String) : String :=
  toolObserveHeader tool_calls ++ ("Results:\n```json\n" ++ observations ++ "\n```")

/-- `Agent._action` (`agent.py` lines 106–173). -/
def action (tools : List Tool) (resp : Except String DriverResponse) (s : AgentState) :
    AgentState × Except String AgentOutput :=
  let s := { s with memory_curr_execution :=
      s.memory_curr_execution ++ [DriverMessage.systemMsg action_system_message] }
  match resp with
  | Except.error e => (s, Except.error e)
  | Except.ok response =>
      match response.tool_calls with
      | [] =>
          ({ s with
              memory_curr_execution :=
                s.memory_curr_execution ++ [DriverMessage.assistantMsg response.content]
              next_step := NextStep.OBSERVE },
            Except.ok (AgentOutput.step response.content))
      | tc :: rest =>
          match runToolCalls tools (tc :: rest) [] "" with
          | Except.error e => (s, Except.error e)
          | Except.ok (tool_messages, observations) =>
              ({ s with
                  memory_curr_execution :=
                    s.memory_curr_execution ++
                      [DriverMessage.assistantToolCalls (tc :: rest)] ++ tool_messages
                  next_step := NextStep.OBSERVE },
                Except.ok (AgentOutput.step (toolObserveText (tc :: rest) observations)))

/-- `Agent._observe` (`agent.py` lines 176–206).  `resp` is the parsed
completion verdict (or the exception raised by the generation/parse). -/
def observe (resp : Except String Bool) (s : AgentState) :
    AgentState × Except String AgentOutput :=
  let s := { s with memory_curr_execution :=
      s.memory_curr_execution ++ [DriverMessage.systemMsg step_check_prompt] }
  match resp with
  | Except.error e => (s, Except.error e)
  | Except.ok completed =>
      if completed then
        ({ s with
            next_step := NextStep.OUTPUT
            memory_curr_execution :=
              s.memory_curr_execution ++ [DriverMessage.assistantMsg "Completed Task."] },
          Except.ok (AgentOutput.step "Completed Task."))
      else
        ({ s with
            next_step := NextStep.PLAN
            memory_curr_execution :=
              s.memory_curr_execution ++ [DriverMessage.assistantMsg "Continuing Task..."] },
          Except.ok (AgentOutput.step "Continuing Task..."))

/-- The sliding-window trim of `Agent._output` (`agent.py` lines 226–229):
after the terminal Assistant message was appended, if the chat holds at
least 10 messages, `pop(1)` twice — remove the two oldest non-system
messages. -/
def evictIfFull (chat : List DriverMessage) : List DriverMessage :=
  if 10 ≤ chat.length then (chat.eraseIdx 1).eraseIdx 1 else chat

/-- The commit tail of `Agent._output` (`agent.py` lines 224–237): append the
terminal Assistant message to persistent chat memory, trim, clear scratch
memory, reset the controller to PLAN and the iteration counter to 0. -/
def commitOutput (agent_response : String) (s : AgentState) : AgentState :=
  { memory_chat := evictIfFull (s.memory_chat ++ [DriverMessage.assistantMsg agent_response])
    memory_curr_execution := []
    next_step := NextStep.PLAN
    num_curr_iterations := 0 }

/-- `Agent._output(error=True)` (`agent.py` lines 210–211 and 224–237): the
fixed failure message is committed without consulting the Driver; this path
cannot raise. -/
def outputErr (s : AgentState) : AgentState × AgentOutput :=
  (commitOutput error_response s, AgentOutput.result error_response)

/-- `Agent._output` (`agent.py` lines 209–237).  With `error := false` the
final answer is generated by the Driver (`resp`), which may raise after the
result prompt was already appended to scratch memory. -/
def output (error : Bool) (resp : Except String String) (s : AgentState) :
    AgentState × Except String AgentOutput :=
  if error then
    let (s1, out) := outputErr s
    (s1, Except.ok out)
  else
    let s := { s with memory_curr_execution :=
        s.memory_curr_execution ++ [DriverMessage.systemMsg result_prompt] }
    match resp with
    | Except.error e => (s, Except.error e)
    | Except.ok agent_response =>
        (commitOutput agent_response s, Except.ok (AgentOutput.result agent_response))

/-- The body of the `try` block of `Agent.iterate` (`agent.py` lines 72–85):
forced OUTPUT when the counter has reached `max_iterations - 1` (without
incrementing), otherwise increment and dispatch on the controller state. -/
def iterateRaw (tools : List Tool) (max_iterations : Int) (o : DriverOracle)
    (s : AgentState) : AgentState × Except String AgentOutput :=
  if s.num_curr_iterations = max_iterations - 1 then
    output false o.outputResp s
  else
    let s := { s with num_curr_iterations := s.num_curr_iterations + 1 }
    match s.next_step with
    | NextStep.PLAN => plan o.planResp s
    | NextStep.ACTION => action tools o.actionResp s
    | NextStep.OBSERVE => observe o.observeResp s
    | NextStep.OUTPUT => output false o.outputResp s

/-- `Agent.iterate` (`agent.py` lines 70–88): the `try/except` wrapper — any
exception raised by the body is caught and answered by
`_output(error=True)`. -/
def iterate (tools : List Tool) (max_iterations : Int) (o : DriverOracle)
    (s : AgentState) : AgentState × AgentOutput :=
  match iterateRaw tools max_iterations o s with
  | (s1, Except.ok out) => (s1, out)
  | (s1, Except.error _) => outputErr s1

/-- Modelled from the spec: the Execution Driver Loop of
`BaseAgent.execute` (§4.3) — the `execute` method itself lives in the
external `compositeai` package, not under `src/`.  It seeds the task via
`exec_init` and then repeatedly pulls `iterate` advancements, yielding each
step lazily to the caller.  `runAdvancements` is the state after a caller
pulled the advancements driven by the listed oracles. -/
def runAdvancements (tools : List Tool) (max_iterations : Int) :
    List DriverOracle → AgentState → AgentState
  | [], s => s
  | o :: os, s =>
      runAdvancements tools max_iterations os (iterate tools max_iterations o s).1

/-- Modelled from the spec: the lazily yielded outputs of the advancements
pulled by the caller (§4.3), in order. -/
def advancementOutputs (tools : List Tool) (max_iterations : Int) :
    List DriverOracle → AgentState → List AgentOutput
  | [], _ => []
  | o :: os, s =>
      (iterate tools max_iterations o s).2 ::
        advancementOutputs tools max_iterations os (iterate tools max_iterations o s).1

/-! ## Behavior-level equations and frame lemmas -/

theorem plan_memory_chat (resp : Except String String) (s : AgentState) :
    (plan resp s).1.memory_chat = s.memory_chat := by
  cases resp <;> rfl

theorem plan_num (resp : Except String String) (s : AgentState) :
    (plan resp s).1.num_curr_iterations = s.num_curr_iterations := by
  cases resp <;> rfl

theorem plan_scratch (resp : Except String String) (s : AgentState) :
    ∃ l, (plan resp s).1.memory_curr_execution = s.memory_curr_execution ++ l := by
  cases resp with
  | error e => exact ⟨[DriverMessage.systemMsg plan_prompt], rfl⟩
  | ok c =>
      exact ⟨[DriverMessage.systemMsg plan_prompt, DriverMessage.assistantMsg c],
        by simp [plan]⟩

theorem plan_ok (c : String) (s : AgentState) :
    plan (Except.ok c) s =
      ({ s with
          memory_curr_execution :=
            s.memory_curr_execution ++ [DriverMessage.systemMsg plan_prompt] ++
              [DriverMessage.assistantMsg c]
          next_step := NextStep.ACTION },
        Except.ok (AgentOutput.step c)) := rfl

theorem plan_error (e : String) (s : AgentState) :
    plan (Except.error e) s =
      ({ s with memory_curr_execution :=
          s.memory_curr_execution ++ [DriverMessage.systemMsg plan_prompt] },
        Except.error e) := rfl

theorem action_memory_chat (tools : List Tool) (resp : Except String DriverResponse)
    (s : AgentState) : (action tools resp s).1.memory_chat = s.memory_chat := by
  cases resp with
  | error e => rfl
  | ok response =>
      obtain ⟨content, calls⟩ := response
      cases calls with
      | nil => rfl
      | cons tc rest =>
          cases hrc : runToolCalls tools (tc :: rest) [] "" with
          | error e => simp [action, hrc]
          | ok p => obtain ⟨tool_messages, observations⟩ := p; simp [action, hrc]

theorem action_num (tools : List Tool) (resp : Except String DriverResponse)
    (s : AgentState) : (action tools resp s).1.num_curr_iterations = s.num_curr_iterations := by
  cases resp with
  | error e => rfl
  | ok response =>
      obtain ⟨content, calls⟩ := response
      cases calls with
      | nil => rfl
      | cons tc rest =>
          cases hrc : runToolCalls tools (tc :: rest) [] "" with
          | error e => simp [action, hrc]
          | ok p => obtain ⟨tool_messages, observations⟩ := p; simp [action, hrc]

theorem action_scratch (tools : List Tool) (resp : Except String DriverResponse)
    (s : AgentState) :
    ∃ l, (action tools resp s).1.memory_curr_execution = s.memory_curr_execution ++ l := by
  cases resp with
  | error e => exact ⟨[DriverMessage.systemMsg action_system_message], rfl⟩
  | ok response =>
      obtain ⟨content, calls⟩ := response
      cases calls with
      | nil =>
          exact ⟨[DriverMessage.systemMsg action_system_message,
            DriverMessage.assistantMsg content], by simp [action]⟩
      | cons tc rest =>
          cases hrc : runToolCalls tools (tc :: rest) [] "" with
          | error e =>
              exact ⟨[DriverMessage.systemMsg action_system_message], by simp [action, hrc]⟩
          | ok p =>
              obtain ⟨tool_messages, observations⟩ := p
              exact ⟨[DriverMessage.systemMsg action_system_message,
                DriverMessage.assistantToolCalls (tc :: rest)] ++ tool_messages,
                by simp [action, hrc]⟩

theorem observe_memory_chat (resp : Except String Bool) (s : AgentState) :
    (observe resp s).1.memory_chat = s.memory_chat := by
  unfold observe
  cases resp with
  | error e => rfl
  | ok completed => cases completed <;> rfl

theorem observe_num (resp : Except String Bool) (s : AgentState) :
    (observe resp s).1.num_curr_iterations = s.num_curr_iterations := by
  unfold observe
  cases resp with
  | error e => rfl
  | ok completed => cases completed <;> rfl

theorem observe_scratch (resp : Except String Bool) (s : AgentState) :
    ∃ l, (observe resp s).1.memory_curr_execution = s.memory_curr_execution ++ l := by
  unfold observe
  cases resp with
  | error e => exact ⟨[DriverMessage.systemMsg step_check_prompt], rfl⟩
  | ok completed =>
      cases completed with
      | true =>
          exact ⟨[DriverMessage.systemMsg step_check_prompt,
            DriverMessage.assistantMsg "Completed Task."], by simp⟩
      | false =>
          exact ⟨[DriverMessage.systemMsg step_check_prompt,
            DriverMessage.assistantMsg "Continuing Task..."], by simp⟩

theorem output_false_ok (c : String) (s : AgentState) :
    output false (Except.ok c) s =
      ({ memory_chat := evictIfFull (s.memory_chat ++ [DriverMessage.assistantMsg c])
         memory_curr_execution := []
         next_step := NextStep.PLAN
         num_curr_iterations := 0 },
       Except.ok (AgentOutput.result c)) := rfl

theorem output_false_error (e : String) (s : AgentState) :
    output false (Except.error e) s =
      ({ s with memory_curr_execution :=
          s.memory_curr_execution ++ [DriverMessage.systemMsg result_prompt] },
        Except.error e) := rfl

theorem outputErr_eq (s : AgentState) :
    outputErr s =
      ({ memory_chat := evictIfFull (s.memory_chat ++ [DriverMessage.assistantMsg error_response])
         memory_curr_execution := []
         next_step := NextStep.PLAN
         num_curr_iterations := 0 },
       AgentOutput.result error_response) := rfl

theorem output_false_error_chat {r : Except String String} {s : AgentState} {e : String}
    (h : (output false r s).2 = Except.error e) :
    (output false r s).1.memory_chat = s.memory_chat := by
  cases r with
  | error e0 => rfl
  | ok c => rw [output_false_ok] at h; cases h

/-! ## `iterate`-level equations -/

theorem iterate_of_raw_ok {tools : List Tool} {m : Int} {o : DriverOracle} {s s1 : AgentState}
    {out : AgentOutput} (h : iterateRaw tools m o s = (s1, Except.ok out)) :
    iterate tools m o s = (s1, out) := by
  unfold iterate; rw [h]

theorem iterate_of_raw_error {tools : List Tool} {m : Int} {o : DriverOracle} {s s1 : AgentState}
    {e : String} (h : iterateRaw tools m o s = (s1, Except.error e)) :
    iterate tools m o s = outputErr s1 := by
  unfold iterate; rw [h]

theorem iterateRaw_forced {tools : List Tool} {m : Int} {o : DriverOracle} {s : AgentState}
    (hm : s.num_curr_iterations = m - 1) :
    iterateRaw tools m o s = output false o.outputResp s := by
  unfold iterateRaw; rw [if_pos hm]

theorem iterateRaw_PLAN {tools : List Tool} {m : Int} {o : DriverOracle} {s : AgentState}
    (hm : ¬ s.num_curr_iterations = m - 1) (hs : s.next_step = NextStep.PLAN) :
    iterateRaw tools m o s =
      plan o.planResp { s with num_curr_iterations := s.num_curr_iterations + 1 } := by
  unfold iterateRaw; rw [if_neg hm, hs]

theorem iterateRaw_ACTION {tools : List Tool} {m : Int} {o : DriverOracle} {s : AgentState}
    (hm : ¬ s.num_curr_iterations = m - 1) (hs : s.next_step = NextStep.ACTION) :
    iterateRaw tools m o s =
      action tools o.actionResp { s with num_curr_iterations := s.num_curr_iterations + 1 } := by
  unfold iterateRaw; rw [if_neg hm, hs]

theorem iterateRaw_OBSERVE {tools : List Tool} {m : Int} {o : DriverOracle} {s : AgentState}
    (hm : ¬ s.num_curr_iterations = m - 1) (hs : s.next_step = NextStep.OBSERVE) :
    iterateRaw tools m o s =
      observe o.observeResp { s with num_curr_iterations := s.num_curr_iterations + 1 } := by
  unfold iterateRaw; rw [if_neg hm, hs]

theorem iterateRaw_OUTPUT {tools : List Tool} {m : Int} {o : DriverOracle} {s : AgentState}
    (hm : ¬ s.num_curr_iterations = m - 1) (hs : s.next_step = NextStep.OUTPUT) :
    iterateRaw tools m o s =
      output false o.outputResp { s with num_curr_iterations := s.num_curr_iterations + 1 } := by
  unfold iterateRaw; rw [if_neg hm, hs]

/-- Master case split for one advancement: either it is terminal — it commits
exactly one Assistant message (its terminal content) to persistent chat
memory, trims, clears scratch memory and resets controller and counter — or
it is an intermediate step that leaves persistent chat memory untouched and
increments the iteration counter, and was not the forced-OUTPUT advancement. -/
theorem iterate_cases (tools : List Tool) (m : Int) (o : DriverOracle) (s : AgentState) :
    (∃ c, iterate tools m o s =
        ({ memory_chat := evictIfFull (s.memory_chat ++ [DriverMessage.assistantMsg c])
           memory_curr_execution := []
           next_step := NextStep.PLAN
           num_curr_iterations := 0 }, AgentOutput.result c))
    ∨ (∃ c, (iterate tools m o s).2 = AgentOutput.step c
        ∧ (iterate tools m o s).1.memory_chat = s.memory_chat
        ∧ (iterate tools m o s).1.num_curr_iterations = s.num_curr_iterations + 1
        ∧ ¬ s.num_curr_iterations = m - 1) := by
  by_cases hm : s.num_curr_iterations = m - 1
  · left
    cases ho : o.outputResp with
    | ok c =>
        refine ⟨c, ?_⟩
        have hr : iterateRaw tools m o s =
            ({ memory_chat := evictIfFull (s.memory_chat ++ [DriverMessage.assistantMsg c])
               memory_curr_execution := []
               next_step := NextStep.PLAN
               num_curr_iterations := 0 }, Except.ok (AgentOutput.result c)) := by
          rw [iterateRaw_forced hm, ho, output_false_ok]
        exact iterate_of_raw_ok hr
    | error e =>
        refine ⟨error_response, ?_⟩
        have hr : iterateRaw tools m o s =
            ({ s with memory_curr_execution :=
                s.memory_curr_execution ++ [DriverMessage.systemMsg result_prompt] },
              Except.error e) := by
          rw [iterateRaw_forced hm, ho, output_false_error]
        rw [iterate_of_raw_error hr, outputErr_eq]
  · cases hs : s.next_step with
    | PLAN =>
        cases hp : o.planResp with
        | ok c =>
            right
            refine ⟨c, ?_, ?_, ?_, hm⟩ <;>
              rw [iterate_of_raw_ok (by rw [iterateRaw_PLAN hm hs, hp, plan_ok])]
        | error e =>
            left
            refine ⟨error_response, ?_⟩
            rw [iterate_of_raw_error (by rw [iterateRaw_PLAN hm hs, hp, plan_error]),
              outputErr_eq]
    | ACTION =>
        cases ha : o.actionResp with
        | error e =>
            left
            refine ⟨error_response, ?_⟩
            have hr : iterateRaw tools m o s =
                action tools (Except.error e)
                  { s with num_curr_iterations := s.num_curr_iterations + 1 } := by
              rw [iterateRaw_ACTION hm hs, ha]
            rw [iterate_of_raw_error (by rw [hr]; rfl), outputErr_eq]
        | ok response =>
            obtain ⟨content, calls⟩ := response
            cases calls with
            | nil =>
                right
                refine ⟨content, ?_, ?_, ?_, hm⟩ <;>
                  rw [iterate_of_raw_ok (by rw [iterateRaw_ACTION hm hs, ha]; rfl)]
            | cons tc rest =>
                cases hrc : runToolCalls tools (tc :: rest) [] "" with
                | error e =>
                    left
                    refine ⟨error_response, ?_⟩
                    have hr : iterateRaw tools m o s =
                        ({ s with
                            num_curr_iterations := s.num_curr_iterations + 1
                            memory_curr_execution := s.memory_curr_execution ++
                              [DriverMessage.systemMsg action_system_message] },
                          Except.error e) := by
                      rw [iterateRaw_ACTION hm hs, ha]
                      simp [action, hrc]
                    rw [iterate_of_raw_error hr, outputErr_eq]
                | ok p =>
                    obtain ⟨tool_messages, observations⟩ := p
                    right
                    have hr : iterateRaw tools m o s =
                        ({ s with
                            num_curr_iterations := s.num_curr_iterations + 1
                            memory_curr_execution := s.memory_curr_execution ++
                                [DriverMessage.systemMsg action_system_message] ++
                              [DriverMessage.assistantToolCalls (tc :: rest)] ++ tool_messages
                            next_step := NextStep.OBSERVE },
                          Except.ok (AgentOutput.step
                            (toolObserveText (tc :: rest) observations))) := by
                      rw [iterateRaw_ACTION hm hs, ha]
                      simp [action, hrc]
                    refine ⟨toolObserveText (tc :: rest) observations, ?_, ?_, ?_, hm⟩ <;>
                      rw [iterate_of_raw_ok hr]
    | OBSERVE =>
        cases hb : o.observeResp with
        | ok completed =>
            cases completed with
            | true =>
                right
                refine ⟨"Completed Task.", ?_, ?_, ?_, hm⟩ <;>
                  rw [iterate_of_raw_ok (by rw [iterateRaw_OBSERVE hm hs, hb]; rfl)]
            | false =>
                right
                refine ⟨"Continuing Task...", ?_, ?_, ?_, hm⟩ <;>
                  rw [iterate_of_raw_ok (by rw [iterateRaw_OBSERVE hm hs, hb]; rfl)]
        | error e =>
            left
            refine ⟨error_response, ?_⟩
            rw [iterate_of_raw_error (by rw [iterateRaw_OBSERVE hm hs, hb]; rfl), outputErr_eq]
    | OUTPUT =>
        cases ho : o.outputResp with
        | ok c =>
            left
            refine ⟨c, ?_⟩
            have hr : iterateRaw tools m o s =
                ({ memory_chat := evictIfFull (s.memory_chat ++ [DriverMessage.assistantMsg c])
                   memory_curr_execution := []
                   next_step := NextStep.PLAN
                   num_curr_iterations := 0 }, Except.ok (AgentOutput.result c)) := by
              rw [iterateRaw_OUTPUT hm hs, ho, output_false_ok]
            exact iterate_of_raw_ok hr
        | error e =>
            left
            refine ⟨error_response, ?_⟩
            rw [iterate_of_raw_error (by rw [iterateRaw_OUTPUT hm hs, ho, output_false_error]),
              outputErr_eq]

/-- An advancement that returned the terminal result `c` left the state fully
committed: the terminal Assistant message appended to persistent memory (then
trimmed), scratch memory cleared, controller reset to PLAN, counter reset to 0. -/
theorem iterate_result_state {tools : List Tool} {m : Int} {o : DriverOracle} {s : AgentState}
    {c : String} (h : (iterate tools m o s).2 = AgentOutput.result c) :
    (iterate tools m o s).1 =
      { memory_chat := evictIfFull (s.memory_chat ++ [DriverMessage.assistantMsg c])
        memory_curr_execution := []
        next_step := NextStep.PLAN
        num_curr_iterations := 0 } := by
  rcases iterate_cases tools m o s with ⟨c', hc⟩ | ⟨c', h2, -, -, -⟩
  · have hcc : c' = c := by
      have := congrArg Prod.snd hc
      rw [h] at this
      cases this
      rfl
    rw [hc, hcc]
  · rw [h] at h2
    cases h2

/-- An advancement that returned an intermediate step left persistent chat
memory untouched, incremented the iteration counter by exactly one, and was
not the forced-OUTPUT advancement. -/
theorem iterate_step_state {tools : List Tool} {m : Int} {o : DriverOracle} {s : AgentState}
    {c : String} (h : (iterate tools m o s).2 = AgentOutput.step c) :
    (iterate tools m o s).1.memory_chat = s.memory_chat
    ∧ (iterate tools m o s).1.num_curr_iterations = s.num_curr_iterations + 1
    ∧ ¬ s.num_curr_iterations = m - 1 := by
  rcases iterate_cases tools m o s with ⟨c', hc⟩ | ⟨c', h2, h3, h4, h5⟩
  · rw [hc] at h
    cases h
  · exact ⟨h3, h4, h5⟩

/-- When the body of `iterate` raises, it has not touched persistent chat
memory (only `_output`'s commit writes it, and that commit cannot raise). -/
theorem iterateRaw_error_chat {tools : List Tool} {m : Int} {o : DriverOracle} {s : AgentState}
    {e : String} (h : (iterateRaw tools m o s).2 = Except.error e) :
    (iterateRaw tools m o s).1.memory_chat = s.memory_chat := by
  by_cases hm : s.num_curr_iterations = m - 1
  · rw [iterateRaw_forced hm] at h ⊢
    exact output_false_error_chat h
  · cases hs : s.next_step with
    | PLAN => rw [iterateRaw_PLAN hm hs]; exact plan_memory_chat _ _
    | ACTION => rw [iterateRaw_ACTION hm hs]; exact action_memory_chat _ _ _
    | OBSERVE => rw [iterateRaw_OBSERVE hm hs]; exact observe_memory_chat _ _
    | OUTPUT =>
        rw [iterateRaw_OUTPUT hm hs] at h ⊢
        exact output_false_error_chat h

/-- Length of the trimmed chat: two messages are removed exactly when the
threshold 10 was reached. -/
theorem evictIfFull_length (l : List DriverMessage) :
    (evictIfFull l).length = if 10 ≤ l.length then l.length - 2 else l.length := by
  unfold evictIfFull
  split
  · rename_i h
    have h1 : 1 < l.length := by omega
    have e1 : (l.eraseIdx 1).length = l.length - 1 := by
      rw [List.length_eraseIdx]
      simp [h1]
    have h2 : 1 < (l.eraseIdx 1).length := by omega
    rw [List.length_eraseIdx, if_pos h2, e1]
    omega
  · rfl

/-- Trimming never removes the head: `pop(1)` twice erases indices 1 and 2
only. -/
theorem evictIfFull_cons_head (x : DriverMessage) (l : List DriverMessage) :
    (evictIfFull (x :: l)).head? = some x := by
  unfold evictIfFull
  split
  · cases l with
    | nil => rfl
    | cons y t => rfl
  · rfl

/-- Appending one message and trimming never returns a list of the original
length, so a committed OUTPUT always changes persistent memory. -/
theorem evictIfFull_append_length_ne (l : List DriverMessage) (a : DriverMessage) :
    ¬ (evictIfFull (l ++ [a])).length = l.length := by
  rw [evictIfFull_length]
  simp only [List.length_append, List.length_cons, List.length_nil]
  split <;> omega

/-- A run of advancements all of which were intermediate steps leaves
persistent chat memory untouched. -/
theorem runAdvancements_chat {tools : List Tool} {m : Int} (os : List DriverOracle)
    (s : AgentState)
    (h : ∀ out ∈ advancementOutputs tools m os s, out.isStep = true) :
    (runAdvancements tools m os s).memory_chat = s.memory_chat := by
  induction os generalizing s with
  | nil => rfl
  | cons o os ih =>
      simp only [advancementOutputs, List.mem_cons, forall_eq_or_imp] at h
      obtain ⟨h0, htail⟩ := h
      cases he : (iterate tools m o s).2 with
      | result c => rw [he] at h0; simp [AgentOutput.isStep] at h0
      | step c =>
          have hstep := iterate_step_state he
          show (runAdvancements tools m os (iterate tools m o s).1).memory_chat = _
          rw [ih _ htail, hstep.1]

/-- Counting argument behind the iteration budget: a sequence of advancements
that are all intermediate steps advances the counter by one each time while
never being allowed to sit at `max_iterations - 1`, so its length is bounded. -/
theorem allSteps_counter {tools : List Tool} {m : Int} (os : List DriverOracle)
    (s : AgentState)
    (h0 : 0 ≤ s.num_curr_iterations) (h1 : s.num_curr_iterations ≤ m - 1)
    (h : ∀ out ∈ advancementOutputs tools m os s, out.isStep = true) :
    s.num_curr_iterations + os.length ≤ m - 1 := by
  induction os generalizing s with
  | nil => simpa using h1
  | cons o os ih =>
      simp only [advancementOutputs, List.mem_cons, forall_eq_or_imp] at h
      obtain ⟨hh, htail⟩ := h
      cases he : (iterate tools m o s).2 with
      | result c => rw [he] at hh; simp [AgentOutput.isStep] at hh
      | step c =>
          obtain ⟨-, hcnt, hne⟩ := iterate_step_state he
          have h0' : 0 ≤ (iterate tools m o s).1.num_curr_iterations := by omega
          have h1' : (iterate tools m o s).1.num_curr_iterations ≤ m - 1 := by omega
          have hrec := ih _ h0' h1' htail
          simp only [List.length_cons] at *
          push_cast at *
          omega

/-! ## Tool dispatcher lemmas -/

/-- The inner tool loop leaves the accumulator untouched when no registered
tool bears the requested name. -/
theorem runToolLoop_no_match (tc : ToolCall) :
    ∀ tools : List Tool, (∀ t ∈ tools, ¬ t.name = tc.name) →
      ∀ acc, runToolLoop tc tools acc = acc := by
  intro tools
  induction tools with
  | nil => intro _ acc; rfl
  | cons t ts ih =>
      intro h acc
      obtain ⟨b, msgs, obs⟩ := acc
      have hm : (t.name == tc.name) = false := by
        rw [beq_eq_false_iff_ne]
        exact h t (List.mem_cons_self t ts)
      simp only [runToolLoop, hm, Bool.false_eq_true, if_false]
      exact ih (fun u hu => h u (List.mem_cons_of_mem _ hu)) (b, msgs, obs)

/-- The `no_match_flag` left by the inner tool loop: it stays set exactly
when no registered tool bears the requested name. -/
theorem runToolLoop_flag (tc : ToolCall) :
    ∀ (tools : List Tool) (b : Bool) (msgs : List DriverMessage) (obs : String),
      (runToolLoop tc tools (b, msgs, obs)).1 =
        (b && ! tools.any fun t => t.name == tc.name) := by
  intro tools
  induction tools with
  | nil => intro b msgs obs; simp [runToolLoop]
  | cons t ts ih =>
      intro b msgs obs
      cases hm : t.name == tc.name with
      | true =>
          cases hf : t.func tc.args with
          | ok r => simp [runToolLoop, hm, hf, ih]
          | error e => simp [runToolLoop, hm, hf, ih]
      | false => simp [runToolLoop, hm, ih]

/-- If some call in the batch names no registered tool, the dispatcher loop
raises the protocol-violation exception (`agent.py` lines 158–160). -/
theorem runToolCalls_error_of_unmatched {tools : List Tool} {tc : ToolCall}
    (hnm : ∀ t ∈ tools, ¬ t.name = tc.name) :
    ∀ (calls : List ToolCall) (msgs : List DriverMessage) (obs : String),
      tc ∈ calls → runToolCalls tools calls msgs obs = Except.error no_match_error := by
  intro calls
  induction calls with
  | nil => intro msgs obs h; cases h
  | cons c1 rest ih =>
      intro msgs obs hmem
      rcases hr : runToolLoop c1 tools (true, msgs, obs) with ⟨flag, m2, o2⟩
      cases flag with
      | true => simp [runToolCalls, hr]
      | false =>
          have htc : tc ∈ rest := by
            rcases List.mem_cons.mp hmem with rfl | htc
            · exfalso
              have hfl := runToolLoop_flag tc tools true msgs obs
              rw [hr] at hfl
              simp only [Bool.true_and] at hfl
              have hany : (tools.any fun t => t.name == tc.name) = true := by
                cases hany : tools.any fun t => t.name == tc.name
                · rw [hany] at hfl; cases hfl
                · rfl
              rw [List.any_eq_true] at hany
              obtain ⟨t, ht, hteq⟩ := hany
              exact hnm t ht (by simpa using hteq)
            · exact htc
          simp only [runToolCalls, hr, Bool.false_eq_true, if_false]
          exact ih m2 o2 htc

/-- When exactly one registered tool bears the requested name and its
invocation raises `e`, the inner loop clears the flag, appends **no** Tool
message, and only extends the observations with the `"Error: "` text
(`agent.py` lines 155–156). -/
theorem runToolLoop_single_error (tc : ToolCall) (t : Tool) (e : String)
    (he : t.func tc.args = Except.error e) :
    ∀ tools : List Tool, tools.filter (fun u => u.name == tc.name) = [t] →
      ∀ (b : Bool) (msgs : List DriverMessage) (obs : String),
        runToolLoop tc tools (b, msgs, obs) =
          (false, msgs, obs ++ "\n\n" ++ ("Error: " ++ e)) := by
  intro tools
  induction tools with
  | nil => intro hf; simp at hf
  | cons u us ih =>
      intro hf b msgs obs
      cases hm : u.name == tc.name with
      | true =>
          rw [List.filter_cons_of_pos (by simpa using hm)] at hf
          injection hf with h1 h2
          subst h1
          simp only [runToolLoop, hm, if_true, he]
          have hnone : ∀ v ∈ us, ¬ v.name = tc.name := by
            intro v hv
            have := List.filter_eq_nil_iff.mp h2 v hv
            simpa using this
          exact runToolLoop_no_match tc us hnone _
      | false =>
          rw [List.filter_cons_of_neg (by simp [hm])] at hf
          simp only [runToolLoop, hm, Bool.false_eq_true, if_false]
          exact ih hf b msgs obs

/-- Dispatching a single-call batch whose (unique) matching tool raises:
no Tool message is produced, the observations hold only the error text, and
no exception escapes. -/
theorem runToolCalls_single_error {tools : List Tool} {tc : ToolCall} {t : Tool} {e : String}
    (hf : tools.filter (fun u => u.name == tc.name) = [t])
    (he : t.func tc.args = Except.error e) :
    runToolCalls tools [tc] [] "" =
      Except.ok ([], "\n\n" ++ ("Error: " ++ e)) := by
  have hl := runToolLoop_single_error tc t e he tools hf true [] ""
  simp only [runToolCalls, hl, Bool.false_eq_true, if_false]
  rfl

/-! ## Task-level runs (Modelled from the spec: the `execute` loop of
`compositeai.BaseAgent`, §4.3, drives one task as `exec_init` followed by
advancements until the terminal one) -/

/-- One task as driven by `execute`: the task text, the optional seed input,
the oracles of the advancements the caller pulled before the terminal one,
and the oracle of the terminal advancement. -/
structure TaskRun where
  task : String
  seed : Option String
  mids : List DriverOracle
  last : DriverOracle

/-- State after task intake and the intermediate advancements of a task. -/
def startTaskState (tools : List Tool) (m : Int) (t : TaskRun) (s : AgentState) : AgentState :=
  runAdvancements tools m t.mids (exec_init t.task t.seed s)

/-- State after a whole task (its terminal advancement included). -/
def runTask (tools : List Tool) (m : Int) (t : TaskRun) (s : AgentState) : AgentState :=
  (iterate tools m t.last (startTaskState tools m t s)).1

/-- The task completed: every pre-terminal advancement yielded an
intermediate step and the last advancement yielded the terminal result. -/
def TaskCompleted (tools : List Tool) (m : Int) (t : TaskRun) (s : AgentState) : Prop :=
  (∀ out ∈ advancementOutputs tools m t.mids (exec_init t.task t.seed s), out.isStep = true)
  ∧ ∃ c, (iterate tools m t.last (startTaskState tools m t s)).2 = AgentOutput.result c

/-- State after a sequence of tasks. -/
def runTasks (tools : List Tool) (m : Int) : List TaskRun → AgentState → AgentState
  | [], s => s
  | t :: ts, s => runTasks tools m ts (runTask tools m t s)

/-- Every task in the sequence completed (each in the state its
predecessors left behind). -/
def TasksCompleted (tools : List Tool) (m : Int) : List TaskRun → AgentState → Prop
  | [], _ => True
  | t :: ts, s => TaskCompleted tools m t s ∧ TasksCompleted tools m ts (runTask tools m t s)

/-- Persistent chat memory across one completed task: the User task message
and the terminal Assistant message are appended, then the window is trimmed
when the threshold is reached. -/
theorem runTask_chat {tools : List Tool} {m : Int} {t : TaskRun} {s : AgentState}
    (h : TaskCompleted tools m t s) :
    ∃ c, (runTask tools m t s).memory_chat =
      evictIfFull ((s.memory_chat ++ [DriverMessage.userMsg (exec_task_text t.task t.seed)]) ++
        [DriverMessage.assistantMsg c]) := by
  obtain ⟨hmid, c, hres⟩ := h
  refine ⟨c, ?_⟩
  have hchat : (startTaskState tools m t s).memory_chat =
      s.memory_chat ++ [DriverMessage.userMsg (exec_task_text t.task t.seed)] := by
    unfold startTaskState
    rw [runAdvancements_chat _ _ hmid]
    rfl
  unfold runTask
  rw [iterate_result_state hres, hchat]

/-- Length form of `runTask_chat`. -/
theorem runTask_chat_length {tools : List Tool} {m : Int} {t : TaskRun} {s : AgentState}
    (h : TaskCompleted tools m t s) :
    (runTask tools m t s).memory_chat.length =
      if 10 ≤ s.memory_chat.length + 2 then s.memory_chat.length
      else s.memory_chat.length + 2 := by
  obtain ⟨c, hc⟩ := runTask_chat h
  rw [hc, evictIfFull_length]
  simp only [List.length_append, List.length_cons, List.length_nil]
  split_ifs <;> omega

/-- The post-task invariant: persistent chat memory never leaves a completed
task longer than 9 messages. -/
theorem runTasks_chat_le {tools : List Tool} {m : Int} :
    ∀ (ts : List TaskRun) (s : AgentState), TasksCompleted tools m ts s →
      s.memory_chat.length ≤ 9 → (runTasks tools m ts s).memory_chat.length ≤ 9 := by
  intro ts
  induction ts with
  | nil => intro s _ h9; exact h9
  | cons t ts ih =>
      intro s hc h9
      obtain ⟨h1, h2⟩ := hc
      refine ih _ h2 ?_
      rw [runTask_chat_length h1]
      split <;> omega

/-! ## Concrete fixtures for the claims -/

/-- Oracle for C1: a PLAN generation only. -/
def c1Oracle : DriverOracle :=
  { planResp := Except.ok "Plan: look up suppliers."
    actionResp := Except.ok { content := "", tool_calls := [] }
    observeResp := Except.ok true
    outputResp := Except.ok "All done." }

/-- Tool for C2 whose invocation always raises. -/
def c2Tool : Tool := { name := "supplier_search", func := fun _ => Except.error "database timeout" }

/-- Tool call for C2 naming the registered tool. -/
def c2Call : ToolCall := { id := "call-1", name := "supplier_search", args := "query" }

/-- Oracle for C2: the Driver requests the single tool call. -/
def c2Oracle : DriverOracle :=
  { planResp := Except.ok "p"
    actionResp := Except.ok { content := "", tool_calls := [c2Call] }
    observeResp := Except.ok true
    outputResp := Except.ok "done" }

/-- ACTION-phase state for C2. -/
def c2State : AgentState :=
  { memory_chat := [DriverMessage.systemMsg "agent"]
    memory_curr_execution := []
    next_step := NextStep.ACTION
    num_curr_iterations := 0 }

/-- Oracle for C3: the final generation returns an answer. -/
def c3Oracle : DriverOracle :=
  { planResp := Except.ok "p"
    actionResp := Except.ok { content := "", tool_calls := [] }
    observeResp := Except.ok true
    outputResp := Except.ok "Here is your answer: acme corp." }

/-- Registered tool for C4. -/
def c4Tool : Tool := { name := "echo", func := fun a => Except.ok a }

/-- Tool call for C4 naming no registered tool. -/
def c4Call : ToolCall := { id := "id-2", name := "search_web", args := "q" }

/-- Oracle for C4: the Driver requests the unmatched call. -/
def c4Oracle : DriverOracle :=
  { planResp := Except.ok "p"
    actionResp := Except.ok { content := "", tool_calls := [c4Call] }
    observeResp := Except.ok true
    outputResp := Except.ok "done" }

/-- ACTION-phase state for C4. -/
def c4State : AgentState :=
  { memory_chat := [DriverMessage.systemMsg "agent"]
    memory_curr_execution := []
    next_step := NextStep.ACTION
    num_curr_iterations := 0 }

/-! ## Claims -/

/-- C1 (counterexample): the claim is false on the code.  `exec_init` —
which `execute` runs at task intake, before any advancement — already
appends the task User message to persistent `_memory_chat`; here the caller
pulls one intermediate step and abandons, yet persistent memory differs
from its pre-`execute` state. -/
theorem C1_counterexample :
    advancementOutputs [] 10 [c1Oracle]
        (exec_init "Find a supplier." none (initState "You are a sourcing agent."))
      = [AgentOutput.step "Plan: look up suppliers."]
    ∧ ¬ (runAdvancements [] 10 [c1Oracle]
        (exec_init "Find a supplier." none (initState "You are a sourcing agent."))).memory_chat
      = (initState "You are a sourcing agent.").memory_chat := by
  constructor
  · rfl
  · decide

/-- C1 (amended): abandoning a streamed task after any run of intermediate
steps leaves persistent chat memory equal to its pre-`execute` state **plus
exactly the one task User message appended at intake by `exec_init`**; the
terminal Assistant commit and the sliding-window trim happen only at the
terminal OUTPUT step, which the abandoning caller never pulls. -/
theorem C1_amended (tools : List Tool) (m : Int) (os : List DriverOracle)
    (task : String) (input : Option String) (s : AgentState)
    (h : ∀ out ∈ advancementOutputs tools m os (exec_init task input s), out.isStep = true) :
    (runAdvancements tools m os (exec_init task input s)).memory_chat =
      s.memory_chat ++ [DriverMessage.userMsg (exec_task_text task input)] := by
  rw [runAdvancements_chat _ _ h]
  rfl

/-- C1 (witness): the amended statement at a concrete abandoned task. -/
theorem C1_witness :
    (∀ out ∈ advancementOutputs [] 10 [c1Oracle]
        (exec_init "Find a supplier." none (initState "You are a sourcing agent.")),
      out.isStep = true)
    ∧ (runAdvancements [] 10 [c1Oracle]
        (exec_init "Find a supplier." none (initState "You are a sourcing agent."))).memory_chat
      = (initState "You are a sourcing agent.").memory_chat ++
        [DriverMessage.userMsg (exec_task_text "Find a supplier." none)] :=
  ⟨by decide, C1_amended [] 10 [c1Oracle] "Find a supplier." none _ (by decide)⟩

/-- C2 (counterexample): the claim is false on the code.  The registered
tool matches and its invocation raises, yet the dispatcher appends **no**
Tool message at all to scratch memory (the `except` clause of `_action` only
extends the observation string); the task still advances to OBSERVE. -/
theorem C2_counterexample :
    (iterate [c2Tool] 10 c2Oracle c2State).1.memory_curr_execution.filter
        DriverMessage.isToolMsg = []
    ∧ (iterate [c2Tool] 10 c2Oracle c2State).1.next_step = NextStep.OBSERVE := by
  constructor <;> rfl

/-- C2 (amended): when the matched tool's invocation raises, **no** Tool
message is appended for that call: scratch memory receives only the ACTION
system instruction and the Assistant tool-call message, the step content
embeds the observation text `"Error: " ++ e`, the task is not aborted, and
the controller advances to OBSERVE. -/
theorem C2_amended (tools : List Tool) (m : Int) (o : DriverOracle) (s : AgentState)
    (t : Tool) (tc : ToolCall) (e content : String)
    (hs : s.next_step = NextStep.ACTION)
    (hm : ¬ s.num_curr_iterations = m - 1)
    (ha : o.actionResp = Except.ok { content := content, tool_calls := [tc] })
    (hf : tools.filter (fun u => u.name == tc.name) = [t])
    (he : t.func tc.args = Except.error e) :
    iterate tools m o s =
      ({ s with
          num_curr_iterations := s.num_curr_iterations + 1
          memory_curr_execution := s.memory_curr_execution ++
            [DriverMessage.systemMsg action_system_message,
              DriverMessage.assistantToolCalls [tc]]
          next_step := NextStep.OBSERVE },
        AgentOutput.step (toolObserveText [tc] ("\n\n" ++ ("Error: " ++ e)))) := by
  have hd := runToolCalls_single_error hf he
  have hr : iterateRaw tools m o s =
      ({ s with
          num_curr_iterations := s.num_curr_iterations + 1
          memory_curr_execution := s.memory_curr_execution ++
            [DriverMessage.systemMsg action_system_message,
              DriverMessage.assistantToolCalls [tc]]
          next_step := NextStep.OBSERVE },
        Except.ok (AgentOutput.step (toolObserveText [tc] ("\n\n" ++ ("Error: " ++ e))))) := by
    rw [iterateRaw_ACTION hm hs, ha]
    simp [action, hd]
  exact iterate_of_raw_ok hr

/-- C2 (witness): the amended statement at the concrete raising tool. -/
theorem C2_witness :
    iterate [c2Tool] 10 c2Oracle c2State =
      ({ c2State with
          num_curr_iterations := c2State.num_curr_iterations + 1
          memory_curr_execution := c2State.memory_curr_execution ++
            [DriverMessage.systemMsg action_system_message,
              DriverMessage.assistantToolCalls [c2Call]]
          next_step := NextStep.OBSERVE },
        AgentOutput.step (toolObserveText [c2Call] ("\n\n" ++ ("Error: " ++ "database timeout")))) :=
  C2_amended [c2Tool] 10 c2Oracle c2State c2Tool c2Call "database timeout" ""
    rfl (by decide) rfl rfl rfl

/-- C3 (counterexample): the claim is false on the code.  With
`max_iterations = 1` the very first advancement is the forced OUTPUT, and
its terminal content is the Driver-generated answer, not the fixed failure
message: `iterate` calls `_output()` with `error=False` at budget
exhaustion. -/
theorem C3_counterexample :
    (iterate [] 1 c3Oracle (initState "agent")).2 =
      AgentOutput.result "Here is your answer: acme corp."
    ∧ ¬ ("Here is your answer: acme corp." = error_response) := by
  constructor
  · rfl
  · decide

/-- C3 (amended): the forced OUTPUT at budget exhaustion uses the **normal
generation path**: the Driver is asked for the final answer and its content
becomes the terminal step; the fixed failure message appears only when an
exception is raised (in particular when that final generation itself
raises). -/
theorem C3_amended (tools : List Tool) (m : Int) (o : DriverOracle) (s : AgentState)
    (hm : s.num_curr_iterations = m - 1) :
    (∀ c, o.outputResp = Except.ok c →
      iterate tools m o s =
        ({ memory_chat := evictIfFull (s.memory_chat ++ [DriverMessage.assistantMsg c])
           memory_curr_execution := []
           next_step := NextStep.PLAN
           num_curr_iterations := 0 }, AgentOutput.result c))
    ∧ (∀ e, o.outputResp = Except.error e →
      (iterate tools m o s).2 = AgentOutput.result error_response) := by
  constructor
  · intro c hc
    exact iterate_of_raw_ok (by rw [iterateRaw_forced hm, hc, output_false_ok])
  · intro e hc
    rw [iterate_of_raw_error (by rw [iterateRaw_forced hm, hc, output_false_error])]
    rfl

/-- C3 (witness): the amended statement at the concrete budget-exhausted
advancement. -/
theorem C3_witness :
    iterate [] 1 c3Oracle (initState "agent") =
      ({ memory_chat := evictIfFull ((initState "agent").memory_chat ++
          [DriverMessage.assistantMsg "Here is your answer: acme corp."])
         memory_curr_execution := []
         next_step := NextStep.PLAN
         num_curr_iterations := 0 },
        AgentOutput.result "Here is your answer: acme corp.") :=
  (C3_amended [] 1 c3Oracle (initState "agent") rfl).1 "Here is your answer: acme corp." rfl

/-- C4: a tool call naming no registered tool raises the unrecoverable
protocol-violation exception inside the ACTION advancement; `iterate`
catches it and aborts the task through the error-variant OUTPUT path, so the
terminal Assistant message (the fixed failure text) is still appended to
persistent chat memory (then trimmed), scratch is cleared and the controller
reset — the conversation stays well-formed for the next task. -/
theorem C4_theorem (tools : List Tool) (m : Int) (o : DriverOracle) (s : AgentState)
    (resp : DriverResponse) (tc : ToolCall)
    (hs : s.next_step = NextStep.ACTION)
    (hm : ¬ s.num_curr_iterations = m - 1)
    (ha : o.actionResp = Except.ok resp)
    (htc : tc ∈ resp.tool_calls)
    (hnm : ∀ t ∈ tools, ¬ t.name = tc.name) :
    (iterateRaw tools m o s).2 = Except.error no_match_error
    ∧ iterate tools m o s =
      ({ memory_chat := evictIfFull (s.memory_chat ++ [DriverMessage.assistantMsg error_response])
         memory_curr_execution := []
         next_step := NextStep.PLAN
         num_curr_iterations := 0 }, AgentOutput.result error_response) := by
  obtain ⟨content, calls⟩ := resp
  cases calls with
  | nil => cases htc
  | cons c1 cr =>
      have hd : runToolCalls tools (c1 :: cr) [] "" = Except.error no_match_error :=
        runToolCalls_error_of_unmatched hnm (c1 :: cr) [] "" htc
      have hr : iterateRaw tools m o s =
          ({ s with
              num_curr_iterations := s.num_curr_iterations + 1
              memory_curr_execution := s.memory_curr_execution ++
                [DriverMessage.systemMsg action_system_message] },
            Except.error no_match_error) := by
        rw [iterateRaw_ACTION hm hs, ha]
        simp [action, hd]
      constructor
      · rw [hr]
      · rw [iterate_of_raw_error hr, outputErr_eq]

/-- C4 (witness): the theorem at a concrete unmatched tool call. -/
theorem C4_witness :
    (iterateRaw [c4Tool] 20 c4Oracle c4State).2 = Except.error no_match_error
    ∧ iterate [c4Tool] 20 c4Oracle c4State =
      ({ memory_chat := evictIfFull (c4State.memory_chat ++
          [DriverMessage.assistantMsg error_response])
         memory_curr_execution := []
         next_step := NextStep.PLAN
         num_curr_iterations := 0 }, AgentOutput.result error_response) :=
  C4_theorem [c4Tool] 20 c4Oracle c4State { content := "", tool_calls := [c4Call] } c4Call
    rfl (by decide) rfl (by decide) (by decide)

/-- Oracle for C5/C6: an immediately terminal advancement. -/
def c5Oracle : DriverOracle :=
  { planResp := Except.ok "p"
    actionResp := Except.ok { content := "", tool_calls := [] }
    observeResp := Except.ok true
    outputResp := Except.ok "ok" }

/-- A one-advancement task for C5 (with `max_iterations = 1` its only
advancement is the terminal OUTPUT). -/
def c5Task : TaskRun := { task := "t", seed := none, mids := [], last := c5Oracle }

/-- C5: across any sequence of completed tasks persistent chat memory stays
within the cap: after every completed task its length is at most 9, hence it
never exceeds the configured threshold 10 + 1 even transiently; and in the
6-task scenario the lengths after tasks 1–6 are 3, 5, 7, 9, 9, 9 — the first
eviction fires at the 5th task (9 + 2 would reach the threshold) and growth
stops at 9. -/
theorem C5_theorem (tools : List Tool) (m : Int) (d : String) :
    (∀ ts : List TaskRun, TasksCompleted tools m ts (initState d) →
      (runTasks tools m ts (initState d)).memory_chat.length ≤ 10 + 1)
    ∧ (∀ t1 t2 t3 t4 t5 t6 : TaskRun,
        TasksCompleted tools m [t1, t2, t3, t4, t5, t6] (initState d) →
        (runTask tools m t1 (initState d)).memory_chat.length = 3
        ∧ (runTask tools m t2 (runTask tools m t1 (initState d))).memory_chat.length = 5
        ∧ (runTask tools m t3 (runTask tools m t2
            (runTask tools m t1 (initState d)))).memory_chat.length = 7
        ∧ (runTask tools m t4 (runTask tools m t3 (runTask tools m t2
            (runTask tools m t1 (initState d))))).memory_chat.length = 9
        ∧ (runTask tools m t5 (runTask tools m t4 (runTask tools m t3 (runTask tools m t2
            (runTask tools m t1 (initState d)))))).memory_chat.length = 9
        ∧ (runTask tools m t6 (runTask tools m t5 (runTask tools m t4 (runTask tools m t3
            (runTask tools m t2 (runTask tools m t1
              (initState d))))))).memory_chat.length = 9) := by
  constructor
  · intro ts h
    have := runTasks_chat_le ts (initState d) h (by simp [initState])
    omega
  · intro t1 t2 t3 t4 t5 t6 h
    obtain ⟨h1, h2, h3, h4, h5, h6, -⟩ := h
    have l0 : (initState d).memory_chat.length = 1 := by simp [initState]
    have l1 : (runTask tools m t1 (initState d)).memory_chat.length = 3 := by
      rw [runTask_chat_length h1, l0]; norm_num
    have l2 : (runTask tools m t2 (runTask tools m t1 (initState d))).memory_chat.length = 5 := by
      rw [runTask_chat_length h2, l1]; norm_num
    have l3 : (runTask tools m t3 (runTask tools m t2
        (runTask tools m t1 (initState d)))).memory_chat.length = 7 := by
      rw [runTask_chat_length h3, l2]; norm_num
    have l4 : (runTask tools m t4 (runTask tools m t3 (runTask tools m t2
        (runTask tools m t1 (initState d))))).memory_chat.length = 9 := by
      rw [runTask_chat_length h4, l3]; norm_num
    have l5 : (runTask tools m t5 (runTask tools m t4 (runTask tools m t3 (runTask tools m t2
        (runTask tools m t1 (initState d)))))).memory_chat.length = 9 := by
      rw [runTask_chat_length h5, l4]; norm_num
    have l6 : (runTask tools m t6 (runTask tools m t5 (runTask tools m t4 (runTask tools m t3
        (runTask tools m t2 (runTask tools m t1 (initState d))))))).memory_chat.length = 9 := by
      rw [runTask_chat_length h6, l5]; norm_num
    exact ⟨l1, l2, l3, l4, l5, l6⟩

/-- C5 (witness): six concrete completed tasks. -/
theorem C5_witness :
    TasksCompleted [] 1 [c5Task, c5Task, c5Task, c5Task, c5Task, c5Task] (initState "d")
    ∧ (runTasks [] 1 [c5Task, c5Task, c5Task, c5Task, c5Task, c5Task]
        (initState "d")).memory_chat.length ≤ 10 + 1
    ∧ (runTask [] 1 c5Task (runTask [] 1 c5Task (runTask [] 1 c5Task (runTask [] 1 c5Task
        (runTask [] 1 c5Task (runTask [] 1 c5Task
          (initState "d"))))))).memory_chat.length = 9 := by
  have hp : TasksCompleted [] 1 [c5Task, c5Task, c5Task, c5Task, c5Task, c5Task]
      (initState "d") := by
    refine ⟨⟨?_, "ok", rfl⟩, ⟨?_, "ok", rfl⟩, ⟨?_, "ok", rfl⟩, ⟨?_, "ok", rfl⟩,
      ⟨?_, "ok", rfl⟩, ⟨?_, "ok", rfl⟩, trivial⟩ <;> decide
  refine ⟨hp, (C5_theorem [] 1 "d").1 _ hp, ?_⟩
  exact ((C5_theorem [] 1 "d").2 c5Task c5Task c5Task c5Task c5Task c5Task hp).2.2.2.2.2

/-- Chat state with 9 messages for C6: a trim fires on the next commit. -/
def c6State : AgentState :=
  { memory_chat := [DriverMessage.systemMsg "agent",
      DriverMessage.userMsg "t1", DriverMessage.assistantMsg "a1",
      DriverMessage.userMsg "t2", DriverMessage.assistantMsg "a2",
      DriverMessage.userMsg "t3", DriverMessage.assistantMsg "a3",
      DriverMessage.userMsg "t4", DriverMessage.assistantMsg "a4"]
    memory_curr_execution := []
    next_step := NextStep.PLAN
    num_curr_iterations := 0 }

/-- Oracle for C6: terminal generation producing the committed answer. -/
def c6Oracle : DriverOracle :=
  { planResp := Except.ok "p"
    actionResp := Except.ok { content := "", tool_calls := [] }
    observeResp := Except.ok true
    outputResp := Except.ok "final summary" }

/-- C6: the System message placed at index 0 stays at index 0 across task
intake (`exec_init`) and across every advancement; and whenever the eviction
rule fires during a terminal commit (the appended chat reached the threshold
10), the new chat is exactly the System message followed by the old
non-system messages **minus the two oldest**, plus the new terminal
Assistant message — only `pop(1)`/`pop(1)` are executed, never index 0. -/
theorem C6_theorem (tools : List Tool) (m : Int) (o : DriverOracle) (s : AgentState)
    (d : String) (rest : List DriverMessage) (task : String) (seed : Option String)
    (c : String)
    (hchat : s.memory_chat = DriverMessage.systemMsg d :: rest) :
    ((exec_init task seed s).memory_chat.head? = some (DriverMessage.systemMsg d))
    ∧ ((iterate tools m o s).1.memory_chat.head? = some (DriverMessage.systemMsg d))
    ∧ ((iterate tools m o s).2 = AgentOutput.result c → 10 ≤ s.memory_chat.length + 1 →
        (iterate tools m o s).1.memory_chat =
          DriverMessage.systemMsg d :: (rest.drop 2 ++ [DriverMessage.assistantMsg c])) := by
  refine ⟨?_, ?_, ?_⟩
  · simp [exec_init, hchat]
  · rcases iterate_cases tools m o s with ⟨c', hc⟩ | ⟨c', -, hch, -, -⟩
    · rw [hc]
      show (evictIfFull (s.memory_chat ++ [DriverMessage.assistantMsg c'])).head? = _
      rw [hchat, List.cons_append]
      exact evictIfFull_cons_head _ _
    · rw [hch, hchat]
      rfl
  · intro hres hlen
    have hst := iterate_result_state hres
    cases rest with
    | nil => rw [hchat] at hlen; simp at hlen
    | cons r0 rest1 =>
        cases rest1 with
        | nil => rw [hchat] at hlen; simp at hlen
        | cons r1 rest2 =>
            have h10 : 10 ≤ ((DriverMessage.systemMsg d :: r0 :: r1 :: rest2) ++
                [DriverMessage.assistantMsg c]).length := by
              rw [hchat] at hlen
              simp only [List.length_append, List.length_cons, List.length_nil] at hlen ⊢
              omega
            rw [hst]
            show evictIfFull (s.memory_chat ++ [DriverMessage.assistantMsg c]) = _
            rw [hchat]
            unfold evictIfFull
            rw [if_pos h10]
            rfl

/-- C6 (witness): a concrete terminal commit on a 9-message chat evicts
exactly the two oldest non-system messages. -/
theorem C6_witness :
    ((exec_init "x" none c6State).memory_chat.head? = some (DriverMessage.systemMsg "agent"))
    ∧ ((iterate [] 1 c6Oracle c6State).1.memory_chat.head? =
        some (DriverMessage.systemMsg "agent"))
    ∧ (iterate [] 1 c6Oracle c6State).1.memory_chat =
        DriverMessage.systemMsg "agent" ::
          ([DriverMessage.userMsg "t1", DriverMessage.assistantMsg "a1",
            DriverMessage.userMsg "t2", DriverMessage.assistantMsg "a2",
            DriverMessage.userMsg "t3", DriverMessage.assistantMsg "a3",
            DriverMessage.userMsg "t4", DriverMessage.assistantMsg "a4"].drop 2 ++
            [DriverMessage.assistantMsg "final summary"]) := by
  have h := C6_theorem [] 1 c6Oracle c6State "agent"
    [DriverMessage.userMsg "t1", DriverMessage.assistantMsg "a1",
      DriverMessage.userMsg "t2", DriverMessage.assistantMsg "a2",
      DriverMessage.userMsg "t3", DriverMessage.assistantMsg "a3",
      DriverMessage.userMsg "t4", DriverMessage.assistantMsg "a4"] "x" none "final summary" rfl
  exact ⟨h.1, h.2.1, h.2.2 rfl (by decide)⟩

/-- Oracle for C7: the PLAN generation raises. -/
def c7Oracle : DriverOracle :=
  { planResp := Except.error "LLM connection reset"
    actionResp := Except.ok { content := "", tool_calls := [] }
    observeResp := Except.ok true
    outputResp := Except.ok "x" }

/-- C7: whatever exception the body of an advancement raises (any behavior,
any Driver call, the tool dispatcher), `iterate` catches it and returns the
error-variant OUTPUT: the terminal step carries the fixed failure message,
that message is committed to persistent memory (then trimmed), scratch is
cleared, and the controller and counter are reset — no exception crosses
`iterate`, so every path ends in a well-formed terminal step. -/
theorem C7_theorem (tools : List Tool) (m : Int) (o : DriverOracle) (s : AgentState)
    (e : String) (h : (iterateRaw tools m o s).2 = Except.error e) :
    iterate tools m o s =
      ({ memory_chat := evictIfFull (s.memory_chat ++ [DriverMessage.assistantMsg error_response])
         memory_curr_execution := []
         next_step := NextStep.PLAN
         num_curr_iterations := 0 }, AgentOutput.result error_response) := by
  have hc := iterateRaw_error_chat h
  rcases hraw : iterateRaw tools m o s with ⟨s1, r⟩
  rw [hraw] at h hc
  simp only [] at h hc
  have hr2 : r = Except.error e := h
  subst hr2
  have hc1 : s1.memory_chat = s.memory_chat := hc
  rw [iterate_of_raw_error hraw, outputErr_eq, hc1]

/-- C7 (witness): a raising PLAN generation at a concrete state. -/
theorem C7_witness :
    iterate [] 20 c7Oracle (initState "agent") =
      ({ memory_chat := evictIfFull ((initState "agent").memory_chat ++
          [DriverMessage.assistantMsg error_response])
         memory_curr_execution := []
         next_step := NextStep.PLAN
         num_curr_iterations := 0 }, AgentOutput.result error_response) :=
  C7_theorem [] 20 c7Oracle (initState "agent") "LLM connection reset" rfl

/-- Oracle for C8. -/
def c8Oracle : DriverOracle :=
  { planResp := Except.ok "p"
    actionResp := Except.ok { content := "", tool_calls := [] }
    observeResp := Except.ok true
    outputResp := Except.ok "answer" }

/-- C8 (counterexample): the claim is false on the code: the forced terminal
advancement does **not** increment the counter (with `max_iterations = 1`
the first advancement is terminal: the counter stays 0, it is never
incremented). -/
theorem C8_counterexample :
    (initState "d").num_curr_iterations = 1 - 1
    ∧ (iterate [] 1 c8Oracle (initState "d")).2 = AgentOutput.result "answer"
    ∧ ¬ ((iterate [] 1 c8Oracle (initState "d")).1.num_curr_iterations =
        (initState "d").num_curr_iterations + 1) := by
  refine ⟨rfl, rfl, by decide⟩

/-- C8 (amended): the iteration counter starts at 0, is incremented by
exactly one on every advancement that yields an intermediate step, and is
reset to 0 by a terminal advancement (the forced terminal advancement does
not increment it); it never exceeds `max_iterations - 1`; and from a fresh
task (counter 0, `max_iterations ≥ 1`) no more than `max_iterations - 1`
consecutive intermediate steps are possible, so the terminal OUTPUT is
forced no later than the `max_iterations`-th advancement and every task's
step sequence is finite. -/
theorem C8_amended (tools : List Tool) (m : Int) (o : DriverOracle) (s : AgentState)
    (d : String) :
    ((initState d).num_curr_iterations = 0)
    ∧ (∀ c, (iterate tools m o s).2 = AgentOutput.step c →
        ¬ s.num_curr_iterations = m - 1
        ∧ (iterate tools m o s).1.num_curr_iterations = s.num_curr_iterations + 1)
    ∧ (∀ c, (iterate tools m o s).2 = AgentOutput.result c →
        (iterate tools m o s).1.num_curr_iterations = 0)
    ∧ (1 ≤ m → 0 ≤ s.num_curr_iterations → s.num_curr_iterations ≤ m - 1 →
        0 ≤ (iterate tools m o s).1.num_curr_iterations
        ∧ (iterate tools m o s).1.num_curr_iterations ≤ m - 1)
    ∧ (∀ os : List DriverOracle, s.num_curr_iterations = 0 → 1 ≤ m →
        (∀ out ∈ advancementOutputs tools m os s, out.isStep = true) →
        (os.length : Int) ≤ m - 1) := by
  refine ⟨rfl, ?_, ?_, ?_, ?_⟩
  · intro c hstep
    obtain ⟨-, hcnt, hne⟩ := iterate_step_state hstep
    exact ⟨hne, hcnt⟩
  · intro c hres
    rw [iterate_result_state hres]
  · intro h1 h2 h3
    rcases iterate_cases tools m o s with ⟨c, hc⟩ | ⟨c, -, -, hcnt, hne⟩
    · rw [hc]
      refine ⟨le_refl 0, ?_⟩
      show (0 : Int) ≤ m - 1
      omega
    · rw [hcnt]
      omega
  · intro os h0 h1 hsteps
    have := allSteps_counter os s (by omega) (by omega) hsteps
    omega

/-- C8 (witness): an intermediate PLAN advancement increments the counter,
and one intermediate step fits the budget `m = 3`. -/
theorem C8_witness :
    ((iterate [] 3 c8Oracle (initState "d")).2 = AgentOutput.step "p"
      ∧ ¬ (initState "d").num_curr_iterations = 3 - 1
      ∧ (iterate [] 3 c8Oracle (initState "d")).1.num_curr_iterations =
          (initState "d").num_curr_iterations + 1)
    ∧ (([c8Oracle] : List DriverOracle).length : Int) ≤ 3 - 1 := by
  have h := C8_amended [] 3 c8Oracle (initState "d") "d"
  refine ⟨⟨rfl, ?_, ?_⟩, ?_⟩
  · exact (h.2.1 "p" rfl).1
  · exact (h.2.1 "p" rfl).2
  · exact h.2.2.2.2 [c8Oracle] rfl (by norm_num) (by decide)

/-- C9: the PLAN, ACTION and OBSERVE behaviors leave persistent chat memory
unchanged and only append (a suffix) to scratch memory, for every Driver
response including raised exceptions; among the four behaviors only OUTPUT
mutates persistent memory — and it always does (both the generated and the
error variant change the chat). -/
theorem C9_theorem (tools : List Tool) (rp : Except String String)
    (ra : Except String DriverResponse) (ro : Except String Bool)
    (c : String) (s : AgentState) :
    ((plan rp s).1.memory_chat = s.memory_chat
      ∧ ∃ l, (plan rp s).1.memory_curr_execution = s.memory_curr_execution ++ l)
    ∧ ((action tools ra s).1.memory_chat = s.memory_chat
      ∧ ∃ l, (action tools ra s).1.memory_curr_execution = s.memory_curr_execution ++ l)
    ∧ ((observe ro s).1.memory_chat = s.memory_chat
      ∧ ∃ l, (observe ro s).1.memory_curr_execution = s.memory_curr_execution ++ l)
    ∧ ¬ (output false (Except.ok c) s).1.memory_chat = s.memory_chat
    ∧ ¬ (outputErr s).1.memory_chat = s.memory_chat := by
  refine ⟨⟨plan_memory_chat rp s, plan_scratch rp s⟩,
    ⟨action_memory_chat tools ra s, action_scratch tools ra s⟩,
    ⟨observe_memory_chat ro s, observe_scratch ro s⟩, ?_, ?_⟩
  · intro h
    have h2 : evictIfFull (s.memory_chat ++ [DriverMessage.assistantMsg c]) = s.memory_chat := h
    exact evictIfFull_append_length_ne s.memory_chat (DriverMessage.assistantMsg c)
      (by rw [h2])
  · intro h
    have h2 : evictIfFull (s.memory_chat ++ [DriverMessage.assistantMsg error_response]) =
        s.memory_chat := h
    exact evictIfFull_append_length_ne s.memory_chat (DriverMessage.assistantMsg error_response)
      (by rw [h2])

/-- C9 (witness): the frame properties at a concrete state. -/
theorem C9_witness :
    (plan (Except.ok "p") (initState "d")).1.memory_chat = (initState "d").memory_chat
    ∧ ¬ (outputErr (initState "d")).1.memory_chat = (initState "d").memory_chat :=
  ⟨(C9_theorem [] (Except.ok "p") (Except.ok { content := "", tool_calls := [] })
      (Except.ok true) "x" (initState "d")).1.1,
    (C9_theorem [] (Except.ok "p") (Except.ok { content := "", tool_calls := [] })
      (Except.ok true) "x" (initState "d")).2.2.2.2⟩

/-- Registered tool for C10 (its invocation succeeds). -/
def c10Tool : Tool := { name := "get_suppliers", func := fun a => Except.ok ("got " ++ a) }

/-- First call of the C10 batch: matches the registered tool. -/
def c10CallOk : ToolCall := { id := "a-1", name := "get_suppliers", args := "chairs" }

/-- Second call of the C10 batch: matches nothing. -/
def c10CallBad : ToolCall := { id := "a-2", name := "send_email", args := "x" }

/-- Two-call batch for C10: the first call runs before the second aborts. -/
def c10Resp : DriverResponse := { content := "", tool_calls := [c10CallOk, c10CallBad] }

/-- ACTION-phase state for C10. -/
def c10State : AgentState :=
  { memory_chat := [DriverMessage.systemMsg "agent"]
    memory_curr_execution := []
    next_step := NextStep.ACTION
    num_curr_iterations := 0 }

/-- C10: when the dispatcher loop aborts an ACTION batch (some call matched
no registered tool), scratch memory receives neither the Assistant tool-call
message nor any Tool message of that batch — it gains only the ACTION system
instruction; both batch messages are appended only when every call in the
batch dispatched without a protocol violation. -/
theorem C10_theorem (tools : List Tool) (resp : DriverResponse) (s : AgentState) :
    (∀ e, runToolCalls tools resp.tool_calls [] "" = Except.error e →
      (action tools (Except.ok resp) s).1.memory_curr_execution =
          s.memory_curr_execution ++ [DriverMessage.systemMsg action_system_message]
        ∧ (action tools (Except.ok resp) s).2 = Except.error e)
    ∧ (∀ (tool_messages : List DriverMessage) (observations : String),
        ¬ resp.tool_calls = [] →
        runToolCalls tools resp.tool_calls [] "" = Except.ok (tool_messages, observations) →
        (action tools (Except.ok resp) s).1.memory_curr_execution =
          s.memory_curr_execution ++ [DriverMessage.systemMsg action_system_message,
            DriverMessage.assistantToolCalls resp.tool_calls] ++ tool_messages) := by
  obtain ⟨content, calls⟩ := resp
  constructor
  · intro e he
    cases calls with
    | nil => simp [runToolCalls] at he
    | cons tc cr => constructor <;> simp [action, he]
  · intro tool_messages observations hne hok
    cases calls with
    | nil => exact absurd rfl hne
    | cons tc cr => simp [action, hok]

/-- C10 (witness): a concrete batch whose first call dispatched (the tool
ran) and whose second call aborts — scratch receives neither batch
message. -/
theorem C10_witness :
    runToolCalls [c10Tool] c10Resp.tool_calls [] "" = Except.error no_match_error
    ∧ (action [c10Tool] (Except.ok c10Resp) c10State).1.memory_curr_execution =
        c10State.memory_curr_execution ++ [DriverMessage.systemMsg action_system_message]
    ∧ (action [c10Tool] (Except.ok c10Resp) c10State).2 = Except.error no_match_error := by
  have h := (C10_theorem [c10Tool] c10Resp c10State).1 no_match_error rfl
  exact ⟨rfl, h.1, h.2⟩

end SLS
